import Mathlib

/-!
Verification development for the Supervisor web service.

The repository is a Flask "supervisor" service: it authenticates users
against a MongoDB-backed credential store, forwards analysis tasks to an
upstream "worker" HTTP service through a thin client
(`services/worker_client.py`), and reshapes the worker's loosely
structured memory payloads into a stable recommendation summary.

This file gives a shallow embedding of the parts of the source relevant
to the verified properties:

* a `Json` value type standing for Python's JSON-like dict/list values;
* Python dictionary/attribute operations (`.get`, truthiness, `len`,
  iteration, `list.append`) as total Lean functions returning
  `Except PyErr _` where the Python operation can raise;
* the normalization section of `WorkerClient.get_recommendations`
  (worker_client.py lines 163-215), with the in-place mutation of the
  input's `issues` list made explicit by returning the post-call value
  of the input object alongside the result;
* `WorkerClient._make_request` (worker_client.py lines 25-72) over an
  abstract HTTP outcome type;
* `AuthService.register_user` / `authenticate_user`
  (auth_service.py) over a MongoDB collection modelled as a list of
  documents whose `insert_one` honours the unique index on `username`;
* the `require_auth` helpers and the `/api/analyze`,
  `/api/recommendations` and `/api/memory` route bodies
  (routes/dashboard.py, routes/memory.py, routes/profile.py).
-/

namespace Supervisor

/-- A JSON value, standing for the Python dict/list/str/number/bool/None
values that flow through the service.  Numbers are exact rationals. -/
inductive Json where
  | null
  | bool (b : Bool)
  | num (q : Rat)
  | str (s : String)
  | arr (elems : List Json)
  | obj (fields : List (String × Json))
deriving Inhabited

/-- Errors a modelled Python operation can raise. `attributeError` stands
for `AttributeError` (e.g. `.get` on a non-dict, `.append` on a
non-list, `.lower()` on a non-str), `typeError` for `TypeError` (e.g.
iterating or taking `len` of a number), and `badRequest` for the
`werkzeug` exceptions `flask.request.get_json()` raises on a missing or
unparseable body. -/
inductive PyErr where
  | attributeError
  | typeError
  | badRequest
deriving DecidableEq, Inhabited

/-- First-match association-list lookup: the value a Python dict holds at
key `k`, or `none` when the key is absent. -/
def jLookup : List (String × Json) → String → Option Json
  | [], _ => none
  | (k', v) :: rest, k => if k' = k then some v else jLookup rest k

/-- Python `d.get(k, dflt)` on a dict whose fields are `fs`. -/
def jGetD (fs : List (String × Json)) (k : String) (dflt : Json) : Json :=
  (jLookup fs k).getD dflt

/-- Python `x.get(k, dflt)`: succeeds only when `x` is a dict, raising
`AttributeError` otherwise (the behaviour `get_recommendations` shows on
non-dict sub-structures). -/
def pyGetD (x : Json) (k : String) (dflt : Json) : Except PyErr Json :=
  match x with
  | .obj fs => .ok (jGetD fs k dflt)
  | _ => .error .attributeError

/-- Python truthiness of a JSON-like value (`if not issues:` etc.). -/
def Json.truthy : Json → Bool
  | .null => false
  | .bool b => b
  | .num q => decide (q ≠ 0)
  | .str s => decide (s ≠ "")
  | .arr xs => !xs.isEmpty
  | .obj fs => !fs.isEmpty

/-- `x is None` in Python, i.e. the value is JSON null. -/
def Json.isNull : Json → Bool
  | .null => true
  | _ => false

/-- Whether the value is a JSON object (a Python dict). -/
def Json.isObj : Json → Bool
  | .obj _ => true
  | _ => false

/-- Whether the value is a JSON array (a Python list). -/
def Json.isArr : Json → Bool
  | .arr _ => true
  | _ => false

/-- Python `len(x)`, raising `TypeError` on numbers, booleans and None. -/
def pyLen : Json → Except PyErr Nat
  | .arr xs => .ok xs.length
  | .str s => .ok s.length
  | .obj fs => .ok fs.length
  | _ => .error .typeError

/-- Python `list.append`: appends when the receiver is a list, raising
`AttributeError` otherwise (the receiver may be a non-list when the
input's `issues` field is a falsy non-list value). -/
def pyAppend (l x : Json) : Except PyErr Json :=
  match l with
  | .arr xs => .ok (.arr (xs ++ [x]))
  | _ => .error .attributeError

/-- Python iteration `for p in x`: lists yield their elements, strings
their one-character substrings, dicts their keys; numbers, booleans and
None raise `TypeError`. -/
def pyIter : Json → Except PyErr (List Json)
  | .arr xs => .ok xs
  | .str s => .ok (s.toList.map fun c => .str c.toString)
  | .obj fs => .ok (fs.map fun kv => .str kv.1)
  | _ => .error .typeError

/-- `needle == hay[i:i+len(needle)]` for some split: list form of Python
substring containment, with the empty needle contained everywhere. -/
def chunkAt : List Char → List Char → Bool
  | [], _ => true
  | _ :: _, [] => false
  | a :: as, b :: bs => a = b && chunkAt as bs

/-- Helper for `strHas`: scan the haystack left to right. -/
def scanHas (pat : List Char) : List Char → Bool
  | [] => chunkAt pat []
  | c :: t => chunkAt pat (c :: t) || scanHas pat t

/-- Python `pat in hay` on strings: substring containment. -/
def strHas (hay pat : String) : Bool :=
  scanHas pat.toList hay.toList

/-- ASCII lower-casing of one character; the case-insensitive matches in
the source compare against the ASCII words `problem`, `warning`,
`issue`, for which ASCII folding coincides with Python's `str.lower`. -/
def lowerChar (c : Char) : Char :=
  if 65 ≤ c.toNat ∧ c.toNat ≤ 90 then Char.ofNat (c.toNat + 32) else c

/-- Python `s.lower()` (ASCII range). -/
def strLower (s : String) : String :=
  ⟨s.data.map lowerChar⟩

/-- Python `j == s` for a string literal `s`: true only when `j` is that
string (a non-string never equals a string). -/
def eqStr (j : Json) (s : String) : Bool :=
  match j with
  | .str t => t = s
  | _ => false

/-- Replace the value of the first binding of `k`, leaving the rest of
the fields untouched; models in-place assignment to an existing dict
entry. -/
def setField : List (String × Json) → String → Json → List (String × Json)
  | [], _, _ => []
  | (k', v) :: rest, k, x =>
    if k' = k then (k', x) :: rest else (k', v) :: setField rest k x

/-- The canonical recommendation summary
(worker_client.py lines 200-206): the `result` dict
`get_recommendations` builds out of the long-term-memory object. -/
structure NormResult where
  sleep_score : Json
  confidence : Json
  issues : Json
  recommendations : Json
  personalized_tips : Json
deriving Inhabited

/-- worker_client.py line 194: the filter on a structured pattern's
`type` string — equal to `"issue"` (case-sensitive `==`), or containing
`"problem"` or `"warning"` case-insensitively. -/
def isIssueTypeStr (t : String) : Bool :=
  t = "issue" || strHas (strLower t) "problem" || strHas (strLower t) "warning"

/-- worker_client.py line 194 on the raw `pattern.get('type', '')`
value: a string is tested with `isIssueTypeStr`; a non-string fails the
`== 'issue'` comparison and then raises `AttributeError` at
`pattern_type.lower()`. -/
def patternTypeMatches (ptype : Json) : Except PyErr Bool :=
  match ptype with
  | .str t => .ok (isIssueTypeStr t)
  | _ => .error .attributeError

/-- worker_client.py line 197: the filter on a plain-string pattern —
contains `"issue"` or `"problem"` case-insensitively. -/
def strPatternMatches (s : String) : Bool :=
  strHas (strLower s) "issue" || strHas (strLower s) "problem"

/-- The `for pattern in patterns` loop of worker_client.py lines
190-198, with the running `issues` value passed explicitly: structured
(dict) patterns whose type matches contribute
`pattern.get('description', '')`, plain strings matching contribute
themselves, anything else is skipped; every contribution is a Python
`issues.append`, which raises when `issues` is not a list. -/
def issuesLoop : List Json → Json → Except PyErr Json
  | [], issues => .ok issues
  | p :: rest, issues =>
    match p with
    | .obj pf =>
      match patternTypeMatches (jGetD pf "type" (.str "")) with
      | .error e => .error e
      | .ok m =>
        if m then
          match pyAppend issues (jGetD pf "description" (.str "")) with
          | .error e => .error e
          | .ok issues' => issuesLoop rest issues'
        else issuesLoop rest issues
    | .str s =>
      if strPatternMatches s then
        match pyAppend issues (.str s) with
        | .error e => .error e
        | .ok issues' => issuesLoop rest issues'
      else issuesLoop rest issues
    | _ => issuesLoop rest issues

/-- worker_client.py lines 174-180: `ltm.get(key)` and, when that is
`None`, `ltm.get('trends', \x7b\x7d).get(tkey)` — which raises
`AttributeError` when `trends` holds a non-dict value. -/
def trendsGet (ltm : Json) (tkey : String) : Except PyErr Json :=
  match pyGetD ltm "trends" (.obj []) with
  | .error e => .error e
  | .ok t => pyGetD t tkey .null

/-- The two-level resolution for `sleep_score` / `confidence`
(worker_client.py lines 174-180). -/
def scoreGet (ltm : Json) (key tkey : String) : Except PyErr Json :=
  match pyGetD ltm key .null with
  | .error e => .error e
  | .ok v => if v.isNull then trendsGet ltm tkey else .ok v

/-- worker_client.py lines 185-198: top-level `issues` when truthy,
otherwise the value left in `issues` after iterating `patterns`. -/
def issuesGet (ltm : Json) : Except PyErr Json :=
  match pyGetD ltm "issues" (.arr []) with
  | .error e => .error e
  | .ok issues0 =>
    if issues0.truthy then .ok issues0
    else
      match pyGetD ltm "patterns" (.arr []) with
      | .error e => .error e
      | .ok patterns =>
        match pyIter patterns with
        | .error e => .error e
        | .ok items => issuesLoop items issues0

/-- The normalization section of `WorkerClient.get_recommendations`
(worker_client.py lines 169-206), applied to the long-term-memory value
`ltm`.  Returns the built `result` together with the value of `ltm`
after the call: when `ltm` has an `issues` key, the Python name
`issues` aliases that entry's list, so the loop's `issues.append(...)`
calls mutate the input object in place — the post-call value carries
the final `issues` value in that entry (when the key is absent the
appends go to a fresh list and the input is untouched). -/
def get_recommendations_extract (ltm : Json) : Except PyErr (NormResult × Json) :=
  match pyGetD ltm "recommendations" (.obj []) with
  | .error e => .error e
  | .ok recommendations =>
  match scoreGet ltm "sleep_score" "avg_sleep_score" with
  | .error e => .error e
  | .ok sleep_score =>
  match scoreGet ltm "confidence" "confidence" with
  | .error e => .error e
  | .ok confidence =>
  match pyGetD ltm "personalized_tips" (.arr []) with
  | .error e => .error e
  | .ok personalized_tips =>
  match issuesGet ltm with
  | .error e => .error e
  | .ok issues =>
    let ltmAfter :=
      match ltm with
      | .obj fs =>
        if (jLookup fs "issues").isSome then Json.obj (setField fs "issues" issues)
        else Json.obj fs
      | other => other
    .ok (⟨sleep_score, confidence, issues, recommendations, personalized_tips⟩, ltmAfter)

/-- The result component of the normalization, discarding the post-call
state of the input. -/
def normalizeResult (ltm : Json) : Except PyErr NormResult :=
  (get_recommendations_extract ltm).map Prod.fst

/-! ### Spec-side description of the normalizer

The following definitions follow the specification's words ("first
present wins" resolution, derivation of `issues` from `patterns`) so
they can be compared with the embedding above.  They are stated for the
inputs on which the source code's dictionary probing is meaningful:
`trends` an object when present, `issues` a list when present,
`patterns` a list whose structured entries carry string `type` fields
when present. -/

/-- The structured-entry condition of the spec's `issues` derivation,
as a pure filter: a dict pattern contributes its `description`
(defaulting to the empty string) when its type matches, a plain string
contributes itself when it matches, anything else is dropped. -/
def specIssueOfPattern : Json → Option Json
  | .obj pf =>
    match jGetD pf "type" (.str "") with
    | .str t => if isIssueTypeStr t then some (jGetD pf "description" (.str "")) else none
    | _ => none
  | .str s => if strPatternMatches s then some (.str s) else none
  | _ => none

/-- Spec-side `issues`: the top-level `issues` list when non-empty,
otherwise the patterns-derived list in source order. -/
def specIssues (fs : List (String × Json)) : List Json :=
  match jLookup fs "issues" with
  | some (.arr (x :: xs)) => x :: xs
  | _ =>
    match jLookup fs "patterns" with
    | some (.arr ps) => ps.filterMap specIssueOfPattern
    | _ => []

/-- Spec-side fallback to `trends.<tkey>`: null when `trends` is absent
or lacks the key. -/
def specTrends (fs : List (String × Json)) (tkey : String) : Json :=
  match jLookup fs "trends" with
  | some (.obj tf) => jGetD tf tkey .null
  | _ => .null

/-- Spec-side two-level resolution for `sleep_score` / `confidence`:
the top-level field when present with a non-null value, else the
`trends` entry, else null. -/
def specScore (fs : List (String × Json)) (key tkey : String) : Json :=
  match jLookup fs key with
  | some v => if v.isNull then specTrends fs tkey else v
  | none => specTrends fs tkey

/-- The spec-side normalizer, assembled from the per-field resolutions. -/
def amendedNormalize : Json → NormResult
  | .obj fs =>
    ⟨specScore fs "sleep_score" "avg_sleep_score",
     specScore fs "confidence" "confidence",
     .arr (specIssues fs),
     jGetD fs "recommendations" (.obj []),
     jGetD fs "personalized_tips" (.arr [])⟩
  | _ => ⟨.null, .null, .arr [], .obj [], .arr []⟩

/-- The post-call value of the input object: its `issues` entry, when
present, ends up holding the final issues list. -/
def ltmAfterSpec : Json → Json
  | .obj fs =>
    if (jLookup fs "issues").isSome then .obj (setField fs "issues" (.arr (specIssues fs)))
    else .obj fs
  | other => other

/-- A pattern entry the source's filter can examine without raising:
structured entries must carry a string `type` (or none at all). -/
def patOk : Json → Bool
  | .obj pf =>
    match jLookup pf "type" with
    | none => true
    | some (.str _) => true
    | some _ => false
  | _ => true

/-- `trends`, when present, is an object. -/
def trendsOk (fs : List (String × Json)) : Bool :=
  match jLookup fs "trends" with
  | none => true
  | some (.obj _) => true
  | some _ => false

/-- `issues`, when present, is a list. -/
def issuesOk (fs : List (String × Json)) : Bool :=
  match jLookup fs "issues" with
  | none => true
  | some (.arr _) => true
  | some _ => false

/-- `patterns`, when present, is a list of examinable entries. -/
def patternsOk (fs : List (String × Json)) : Bool :=
  match jLookup fs "patterns" with
  | none => true
  | some (.arr ps) => ps.all patOk
  | some _ => false

/-- The long-term-memory inputs on which the source's dictionary
probing is well-typed. -/
def wellFormedLtm : Json → Bool
  | .obj fs => trendsOk fs && issuesOk fs && patternsOk fs
  | _ => false

/-- Whether the input object carries an `issues` key (the aliasing
condition for the in-place mutation). -/
def hasIssuesKey : Json → Bool
  | .obj fs => (jLookup fs "issues").isSome
  | _ => false

/-- On examinable patterns, the stateful append loop computes exactly
the pure filter, appended to the accumulator in source order. -/
theorem issuesLoop_filterMap (ps : List Json) : ∀ acc : List Json, ps.all patOk = true →
    issuesLoop ps (.arr acc) = .ok (.arr (acc ++ ps.filterMap specIssueOfPattern)) := by
  induction ps with
  | nil => intro acc _; simp [issuesLoop]
  | cons p ps ih =>
    intro acc h
    simp only [List.all_cons, Bool.and_eq_true] at h
    obtain ⟨hp, hps⟩ := h
    cases p with
    | null => simpa [issuesLoop, specIssueOfPattern] using ih acc hps
    | bool b => simpa [issuesLoop, specIssueOfPattern] using ih acc hps
    | num q => simpa [issuesLoop, specIssueOfPattern] using ih acc hps
    | arr xs => simpa [issuesLoop, specIssueOfPattern] using ih acc hps
    | str s =>
      cases hm : strPatternMatches s with
      | true =>
        have h2 := ih (acc ++ [.str s]) hps
        rw [List.append_assoc, List.singleton_append] at h2
        simpa [issuesLoop, specIssueOfPattern, hm, pyAppend] using h2
      | false => simpa [issuesLoop, specIssueOfPattern, hm] using ih acc hps
    | obj pf =>
      cases htype : jLookup pf "type" with
      | none =>
        have hempty : isIssueTypeStr "" = false := by decide
        simpa [issuesLoop, specIssueOfPattern, jGetD, htype, patternTypeMatches, hempty]
          using ih acc hps
      | some v =>
        cases v with
        | str t =>
          cases hm : isIssueTypeStr t with
          | true =>
            have h2 := ih (acc ++ [jGetD pf "description" (.str "")]) hps
            rw [List.append_assoc, List.singleton_append] at h2
            simpa [issuesLoop, specIssueOfPattern, jGetD, htype, patternTypeMatches, hm,
              pyAppend] using h2
          | false =>
            simpa [issuesLoop, specIssueOfPattern, jGetD, htype, patternTypeMatches, hm]
              using ih acc hps
        | null => simp [patOk, htype] at hp
        | bool b => simp [patOk, htype] at hp
        | num q => simp [patOk, htype] at hp
        | arr xs => simp [patOk, htype] at hp
        | obj g => simp [patOk, htype] at hp

/-- On well-typed inputs the issues computation never raises and agrees
with the spec-side description. -/
theorem issuesGet_wf (fs : List (String × Json)) (hi : issuesOk fs = true)
    (hq : patternsOk fs = true) : issuesGet (.obj fs) = .ok (.arr (specIssues fs)) := by
  unfold issuesGet
  cases hI : jLookup fs "issues" with
  | none =>
    cases hP : jLookup fs "patterns" with
    | none =>
      simp [pyGetD, jGetD, hI, hP, Json.truthy, pyIter, issuesLoop, specIssues]
    | some pv =>
      unfold patternsOk at hq
      rw [hP] at hq
      cases pv with
      | arr ps =>
        simp [pyGetD, jGetD, hI, hP, Json.truthy, pyIter, specIssues,
          issuesLoop_filterMap ps [] hq]
      | null => exact absurd hq (by simp)
      | bool b => exact absurd hq (by simp)
      | num q => exact absurd hq (by simp)
      | str s => exact absurd hq (by simp)
      | obj g => exact absurd hq (by simp)
  | some iv =>
    unfold issuesOk at hi
    rw [hI] at hi
    cases iv with
    | arr xs =>
      cases xs with
      | nil =>
        cases hP : jLookup fs "patterns" with
        | none =>
          simp [pyGetD, jGetD, hI, hP, Json.truthy, pyIter, issuesLoop, specIssues]
        | some pv =>
          unfold patternsOk at hq
          rw [hP] at hq
          cases pv with
          | arr ps =>
            simp [pyGetD, jGetD, hI, hP, Json.truthy, pyIter, specIssues,
              issuesLoop_filterMap ps [] hq]
          | null => exact absurd hq (by simp)
          | bool b => exact absurd hq (by simp)
          | num q => exact absurd hq (by simp)
          | str s => exact absurd hq (by simp)
          | obj g => exact absurd hq (by simp)
      | cons x xs =>
        simp [pyGetD, jGetD, hI, Json.truthy, specIssues]
    | null => exact absurd hi (by simp)
    | bool b => exact absurd hi (by simp)
    | num q => exact absurd hi (by simp)
    | str s => exact absurd hi (by simp)
    | obj g => exact absurd hi (by simp)

/-- On inputs whose `trends` is an object when present, the two-level
resolution never raises and agrees with the spec-side description. -/
theorem scoreGet_wf (fs : List (String × Json)) (ht : trendsOk fs = true)
    (key tkey : String) : scoreGet (.obj fs) key tkey = .ok (specScore fs key tkey) := by
  have htr : trendsGet (.obj fs) tkey = .ok (specTrends fs tkey) := by
    unfold trendsGet specTrends
    cases hT : jLookup fs "trends" with
    | none => simp [pyGetD, jGetD, hT, jLookup]
    | some tv =>
      unfold trendsOk at ht
      rw [hT] at ht
      cases tv with
      | obj tf => simp [pyGetD, jGetD, hT]
      | null => exact absurd ht (by simp)
      | bool b => exact absurd ht (by simp)
      | num q => exact absurd ht (by simp)
      | str s => exact absurd ht (by simp)
      | arr xs => exact absurd ht (by simp)
  unfold scoreGet specScore
  cases hK : jLookup fs key with
  | none => simp [pyGetD, jGetD, hK, Json.isNull, htr]
  | some v =>
    cases hv : v.isNull with
    | true => simp [pyGetD, jGetD, hK, hv, htr]
    | false => simp [pyGetD, jGetD, hK, hv]

/-- On well-typed long-term-memory objects the whole normalization
succeeds, producing the spec-side result, and the input's only change
is its `issues` entry (when present) receiving the final issues list. -/
theorem extract_wf (ltm : Json) (h : wellFormedLtm ltm = true) :
    get_recommendations_extract ltm = .ok (amendedNormalize ltm, ltmAfterSpec ltm) := by
  cases ltm with
  | obj fs =>
    unfold wellFormedLtm at h
    simp only [Bool.and_eq_true] at h
    obtain ⟨⟨ht, hi⟩, hq⟩ := h
    unfold get_recommendations_extract
    rw [scoreGet_wf fs ht, scoreGet_wf fs ht, issuesGet_wf fs hi hq]
    simp [pyGetD, amendedNormalize, ltmAfterSpec]
  | null => exact absurd h (by simp [wellFormedLtm])
  | bool b => exact absurd h (by simp [wellFormedLtm])
  | num q => exact absurd h (by simp [wellFormedLtm])
  | str s => exact absurd h (by simp [wellFormedLtm])
  | arr xs => exact absurd h (by simp [wellFormedLtm])

/-! ### Concrete inputs used by the claims -/

/-- The specification's worked example: trends with `avg_sleep_score`
72 and `confidence` 0.8, one `issue` pattern and one `info` pattern. -/
def exLtm : Json :=
  .obj [("trends", .obj [("avg_sleep_score", .num 72), ("confidence", .num (4/5))]),
        ("patterns", .arr [.obj [("type", .str "issue"), ("description", .str "late bedtime")],
                           .obj [("type", .str "info"), ("description", .str "weekend lie-in")]])]

/-- A long-term-memory object whose top-level `sleep_score` is
explicitly null while `trends.avg_sleep_score` holds 50. -/
def nullScoreLtm : Json :=
  .obj [("sleep_score", .null), ("trends", .obj [("avg_sleep_score", .num 50)])]

/-- A long-term-memory object whose `trends` entry is a list, not a
dict. -/
def badTrendsLtm : Json := .obj [("trends", .arr [])]

/-- A long-term-memory object with a present-but-empty `issues` list
and one matching pattern: the derivation appends into the aliased
input list. -/
def aliasLtm : Json :=
  .obj [("issues", .arr []),
        ("patterns", .arr [.obj [("type", .str "issue"), ("description", .str "x")]])]

/-- `aliasLtm` as the source leaves it after `get_recommendations`:
the appended description now sits in the input's `issues` entry. -/
def aliasLtmMutated : Json :=
  .obj [("issues", .arr [.str "x"]),
        ("patterns", .arr [.obj [("type", .str "issue"), ("description", .str "x")]])]

/-! ### Claim C1 -/

/-- C1 counterexample: the claim reads "sleep_score from the top-level
field if present"; on `nullScoreLtm` the field is present (holding
null) yet the code's `dict.get` probing falls through to
`trends.avg_sleep_score` and returns 50, not the present null value. -/
theorem c1_counterexample :
    normalizeResult nullScoreLtm = .ok ⟨.num 50, .null, .arr [], .obj [], .arr []⟩ ∧
    jLookup [("sleep_score", Json.null),
             ("trends", Json.obj [("avg_sleep_score", Json.num 50)])] "sleep_score" =
      some Json.null ∧
    Json.num 50 ≠ Json.null :=
  ⟨rfl, rfl, fun h => Json.noConfusion h⟩

/-- C1 (amended): on long-term-memory objects whose `trends` is an
object when present, whose `issues` is a list when present and whose
`patterns` is a list of entries with string `type` fields when present,
the Response Normalizer produces `sleep_score` from the top-level field
if present with a non-null value, else `trends.avg_sleep_score`, else
null (confidence analogously); `issues` is the top-level list when
non-empty, otherwise derived from `patterns` in source order — a dict
entry contributes its description (defaulting to the empty string) when
its type equals "issue" or contains "problem"/"warning"
case-insensitively, and a string entry contributes itself when it
contains "issue"/"problem" case-insensitively; `recommendations` and
`personalized_tips` come from the top level with empty-mapping /
empty-list defaults. -/
theorem c1_normalizer (ltm : Json) (h : wellFormedLtm ltm = true) :
    normalizeResult ltm = .ok (amendedNormalize ltm) := by
  unfold normalizeResult
  rw [extract_wf ltm h]
  rfl

/-- C1 witness: the specification's worked example — sleep_score 72,
confidence 0.8, issues exactly the `issue` pattern's description. -/
theorem c1_normalizer_witness :
    wellFormedLtm exLtm = true ∧
    normalizeResult exLtm =
      .ok ⟨.num 72, .num (4/5), .arr [.str "late bedtime"], .obj [], .arr []⟩ := by
  refine ⟨by decide, ?_⟩
  rw [c1_normalizer exLtm (by decide)]
  rfl

/-! ### Claim C6 -/

/-- C6 counterexample: the derivation is neither total nor free of side
effects on the input.  On `badTrendsLtm` (a non-dict `trends`,
explicitly within the claim's scope) it raises `AttributeError`
instead of returning; on `aliasLtm` the input object itself is changed
— its empty `issues` list has the matching description appended. -/
theorem c6_counterexample :
    get_recommendations_extract badTrendsLtm = .error .attributeError ∧
    (get_recommendations_extract aliasLtm).map Prod.snd = .ok aliasLtmMutated ∧
    aliasLtmMutated ≠ aliasLtm :=
  ⟨rfl, rfl, by simp [aliasLtmMutated, aliasLtm]⟩

/-- C6 (amended): on well-typed long-term-memory objects (`trends` an
object when present, `issues` a list when present, `patterns` a list of
entries with string `type` fields when present) the derivation returns
without raising; and when the input carries no `issues` key the input
object is left unmodified (when it does carry one, the derived issues
are appended into that aliased list, mutating the input). -/
theorem c6_amended (ltm : Json) (h : wellFormedLtm ltm = true) :
    (∃ p, get_recommendations_extract ltm = Except.ok p) ∧
    (hasIssuesKey ltm = false →
      (get_recommendations_extract ltm).map Prod.snd = Except.ok ltm) := by
  refine ⟨⟨_, extract_wf ltm h⟩, fun hk => ?_⟩
  rw [extract_wf ltm h]
  cases ltm with
  | obj fs =>
    simp only [hasIssuesKey] at hk
    simp [ltmAfterSpec, hk, Except.map]
  | null => rfl
  | bool b => rfl
  | num q => rfl
  | str s => rfl
  | arr xs => rfl

/-- C6 witness: the worked example is well-typed, carries no `issues`
key, and the derivation succeeds leaving it untouched. -/
theorem c6_amended_witness :
    wellFormedLtm exLtm = true ∧ hasIssuesKey exLtm = false ∧
    ((∃ p, get_recommendations_extract exLtm = Except.ok p) ∧
      (hasIssuesKey exLtm = false →
        (get_recommendations_extract exLtm).map Prod.snd = Except.ok exLtm)) :=
  ⟨by decide, by decide, c6_amended exLtm (by decide)⟩

/-! ### Claim C9 -/

/-- C9: a structured pattern whose `type` passes the issue filter but
which lacks a `description` field contributes `pattern.get(
'description', '')`, i.e. the empty string, at its position in the
derived issues list. -/
theorem c9_missing_description (pf : List (String × Json)) (rest acc : List Json)
    (t : String) (ht : jLookup pf "type" = some (.str t)) (hm : isIssueTypeStr t = true)
    (hd : jLookup pf "description" = none) :
    issuesLoop (.obj pf :: rest) (.arr acc) = issuesLoop rest (.arr (acc ++ [.str ""])) := by
  simp [issuesLoop, jGetD, ht, hd, patternTypeMatches, hm, pyAppend]

/-- C9 witness: a single `type: issue` pattern without a description
derives the issues list containing exactly the empty string. -/
theorem c9_missing_description_witness :
    issuesLoop [.obj [("type", .str "issue")]] (.arr []) = .ok (.arr [.str ""]) := by
  rw [c9_missing_description [("type", .str "issue")] [] [] "issue" rfl (by decide) rfl]
  rfl

/-! ### Upstream Client: `WorkerClient._make_request`
(worker_client.py lines 25-72) -/

/-- The transport-level outcome of one HTTP exchange with the worker:
a `requests` timeout, a connection error, or a response carrying its
status code, its body parsed as JSON when parseable, and its raw text. -/
inductive HttpResp where
  | timeout
  | connErr
  | ok (status : Nat) (body? : Option Json) (text : String)

/-- `WorkerClient._make_request`: `response.raise_for_status()` raises
`HTTPError` exactly on a 4xx/5xx status (requests builds an error
message only for `400 <= status < 600`), which — like `Timeout`,
`ConnectionError`, an unparseable body (`response.json()` raising into
the final `except Exception`), and every other error path — is caught
and turned into `None`; a response with any other status and a
parseable JSON body yields the body. -/
def make_request : HttpResp → Option Json
  | .timeout => none
  | .connErr => none
  | .ok status body? _ =>
    if 400 ≤ status ∧ status < 600 then none
    else
      match body? with
      | some j => some j
      | none => none

/-! ### Claim C2 -/

/-- C2 counterexample: a 500 response whose body parses to an error
object is returned as `None`, the very same outcome as a transport
timeout — the non-2xx case is collapsed into the transport-failure
outcome instead of yielding a distinguishable error envelope carrying
the upstream's message. -/
theorem c2_counterexample :
    make_request (.ok 500 (some (.obj [("error", .str "boom")])) "boom") = none ∧
    make_request .timeout = none :=
  ⟨rfl, rfl⟩

/-- C2 (amended): every Upstream Client call returns either the parsed
JSON body (exactly when the status is outside `raise_for_status`'s
4xx/5xx error range and the body parses) or `None`; a 4xx/5xx status
from the worker produces the same `None` as a transport failure (the
upstream's error body is only logged), so the caller cannot distinguish
them — a distinguishable upstream-error outcome exists only inside a
returned body (e.g. a task reply whose `status` field is `"error"`). -/
theorem c2_collapsed (status : Nat) (j : Json) (t : String) :
    (400 ≤ status → status < 600 →
      make_request (.ok status (some j) t) = make_request .timeout) ∧
    (status < 400 ∨ 600 ≤ status → make_request (.ok status (some j) t) = some j) ∧
    make_request .timeout = none ∧ make_request .connErr = none := by
  refine ⟨fun h1 h2 => ?_, fun h => ?_, rfl, rfl⟩
  · simp [make_request, if_pos (And.intro h1 h2)]
  · have hout : ¬ (400 ≤ status ∧ status < 600) := by omega
    simp [make_request, if_neg hout]

/-- C2 witness: at 503 the call equals the timeout outcome; at 200 with
a parseable body the call returns the body. -/
theorem c2_collapsed_witness :
    make_request (.ok 503 (some (.obj [])) "unavailable") = make_request .timeout ∧
    make_request (.ok 200 (some (.obj [("status", .str "completed")])) "") =
      some (.obj [("status", .str "completed")]) :=
  ⟨(c2_collapsed 503 (.obj []) "unavailable").1 (by decide) (by decide),
   (c2_collapsed 200 (.obj [("status", .str "completed")]) "").2.1 (Or.inl (by decide))⟩

/-! ### Credential store and Auth Manager
(models/user.py, services/auth_service.py) -/

/-- A stored user document; `oid` stands for `str(doc['_id'])`, the
MongoDB ObjectId the code round-trips through strings. -/
structure UserDoc where
  oid : String
  username : String
  password_hash : Option String
  profile : List (String × Json)
  created_at : String
  last_login : Option String

/-- The in-flight `User` object of models/user.py: `user_id` is `None`
until the first save, `created_at` is `None` until filled by
`save_user`. -/
structure User where
  username : String
  user_id : Option String
  password_hash : Option String
  profile : List (String × Json)
  created_at : Option String
  last_login : Option String

/-- Functional model of the werkzeug contract: the salted one-way pair
`generate_password_hash` / `check_password_hash` accepts exactly the
password the hash was generated from; the pair is abstracted by a
tagging injection. -/
def generate_password_hash (p : String) : String :=
  "pbkdf2:" ++ p

/-- Functional model of werkzeug's `check_password_hash` (see
`generate_password_hash`). -/
def check_password_hash (h p : String) : Bool :=
  h = "pbkdf2:" ++ p

/-- `User.check_password` (models/user.py lines 29-33): false when no
hash is set. -/
def User.check_password (u : User) (p : String) : Bool :=
  match u.password_hash with
  | none => false
  | some h => check_password_hash h p

/-- The one storage error the claims touch: pymongo's
`DuplicateKeyError`. -/
inductive MongoErr where
  | duplicateKey
deriving DecidableEq

/-- The `users` collection. -/
abbrev UserColl := List UserDoc

/-- Modelled from the pymongo contract for a collection with a unique
index on `username` (created in `MongoUserStorage.__init__`, user.py
line 71): `insert_one` is a single atomic storage step that either
appends the document or raises `DuplicateKeyError` when the username is
already present; concurrent create calls serialize into sequences of
these steps, which is what makes the uniqueness check race-free. -/
def insert_one (coll : UserColl) (d : UserDoc) : Except MongoErr UserColl :=
  if coll.any (fun e => e.username == d.username) then .error .duplicateKey
  else .ok (coll ++ [d])

/-- `replace_one(\x7b'_id': oid\x7d, doc, upsert=True)`: replace the
matching document or append.  (Its own unique-index interaction is not
exercised by any claim.) -/
def replaceOrInsert (coll : UserColl) (oid : String) (d : UserDoc) : UserColl :=
  if coll.any (fun e => e.oid == oid) then
    coll.map (fun e => if e.oid == oid then d else e)
  else coll ++ [d]

/-- `MongoUserStorage.save_user` (user.py lines 85-117): fill
`created_at` if unset, build the document; with an existing `user_id`
replace it (upsert), otherwise `insert_one` — whose
`DuplicateKeyError` is caught and turned into `False`.  Returns the
collection, the `User` object as the call mutates it, and the success
flag. -/
def save_user (coll : UserColl) (u : User) (newOid now : String) : UserColl × User × Bool :=
  let createdAt := u.created_at.getD now
  let u1 : User := { u with created_at := some createdAt }
  match u.user_id with
  | some oid =>
    let d : UserDoc := ⟨oid, u.username, u.password_hash, u.profile, createdAt, u.last_login⟩
    (replaceOrInsert coll oid d, u1, true)
  | none =>
    let d : UserDoc := ⟨newOid, u.username, u.password_hash, u.profile, createdAt, u.last_login⟩
    match insert_one coll d with
    | .ok coll' => (coll', { u1 with user_id := some newOid }, true)
    | .error _ => (coll, u1, false)

/-- `MongoUserStorage.user_exists` (user.py lines 143-149):
`count_documents > 0`. -/
def user_exists (coll : UserColl) (username : String) : Bool :=
  decide (0 < coll.countP (fun e => e.username == username))

/-- `User.from_dict` on a stored document (user.py lines 45-59). -/
def docToUser (d : UserDoc) : User :=
  ⟨d.username, some d.oid, d.password_hash, d.profile, some d.created_at, d.last_login⟩

/-- `MongoUserStorage.get_user_by_username` (user.py lines 119-128). -/
def get_user_by_username (coll : UserColl) (username : String) : Option User :=
  (coll.find? (fun e => e.username == username)).map docToUser

/-- `MongoUserStorage.get_user_by_id` (user.py lines 130-141): `None`
for a falsy id; an id that parses to no stored ObjectId and an absent
document both yield `None` (the former via the catch-all handler). -/
def get_user_by_id (coll : UserColl) (uid : String) : Option User :=
  if uid = "" then none
  else (coll.find? (fun e => e.oid == uid)).map docToUser

/-- `MongoUserStorage.update_user` (user.py lines 151-169): `$set` of
username/password_hash/profile/last_login on the matching document —
`created_at` and the id are untouched. -/
def update_user (coll : UserColl) (u : User) : UserColl × Bool :=
  match u.user_id with
  | none => (coll, false)
  | some oid =>
    if coll.any (fun e => e.oid == oid) then
      (coll.map (fun e =>
        if e.oid == oid then
          ⟨e.oid, u.username, u.password_hash, u.profile, e.created_at, u.last_login⟩
        else e), true)
    else (coll, false)

/-- `AuthService.register_user` (auth_service.py lines 22-51):
validation, pre-check, then `save_user`.  `newOid` stands for the
ObjectId MongoDB generates, `now` for `datetime.now().isoformat()`. -/
def register_user (coll : UserColl) (username password : String)
    (profile : List (String × Json)) (newOid now : String) :
    UserColl × Option User × Option String :=
  if username = "" ∨ password = "" then
    (coll, none, some "Username and password are required")
  else if username.length < 3 then
    (coll, none, some "Username must be at least 3 characters")
  else if password.length < 6 then
    (coll, none, some "Password must be at least 6 characters")
  else if user_exists coll username then
    (coll, none, some "Username already exists")
  else
    let u : User := ⟨username, none, some (generate_password_hash password), profile, none, none⟩
    let r := save_user coll u newOid now
    if r.2.2 then (r.1, some r.2.1, none) else (r.1, none, some "Failed to save user")

/-- `AuthService.authenticate_user` (auth_service.py lines 53-76):
missing fields give the required-fields message; an unknown username
and a wrong password give the same generic message; success updates
`last_login` (best-effort) and returns the user. -/
def authenticate_user (coll : UserColl) (username password : String) (now : String) :
    UserColl × Option User × Option String :=
  if username = "" ∨ password = "" then
    (coll, none, some "Username and password are required")
  else
    match get_user_by_username coll username with
    | none => (coll, none, some "Invalid username or password")
    | some u =>
      if u.check_password password then
        let u' : User := { u with last_login := some now }
        ((update_user coll u').1, some u', none)
      else (coll, none, some "Invalid username or password")

/-! ### Claim C3 -/

/-- A one-user store: alice with password `secret123`. -/
def coll0 : UserColl :=
  [⟨"id1", "alice", some (generate_password_hash "secret123"), [], "t0", none⟩]

/-- C3 counterexample: a missing username does NOT produce the same
undifferentiated invalid-credentials error — it is rejected up front
with the distinct required-fields message, while a non-existent
username gets the generic one. -/
theorem c3_counterexample :
    (authenticate_user coll0 "" "pw" "t1").2.2 = some "Username and password are required" ∧
    (authenticate_user coll0 "bob" "pw" "t1").2.2 = some "Invalid username or password" ∧
    "Username and password are required" ≠ "Invalid username or password" :=
  ⟨rfl, rfl, by decide⟩

/-- C3 (amended): for every store, an authenticate call with a
non-existent username and one with an existing username but wrong
password fail with the same single invalid-credentials error (no
enumeration signal); a missing username or password, however, fails
with the distinct required-fields validation message. -/
theorem c3_no_enumeration (coll : UserColl) (u₁ p₁ u₂ p₂ t₁ t₂ : String)
    (hu₁ : u₁ ≠ "") (hp₁ : p₁ ≠ "") (h₁ : get_user_by_username coll u₁ = none)
    (hu₂ : u₂ ≠ "") (hp₂ : p₂ ≠ "") (usr : User)
    (h₂ : get_user_by_username coll u₂ = some usr)
    (hw : usr.check_password p₂ = false) :
    (authenticate_user coll u₁ p₁ t₁).2 = (none, some "Invalid username or password") ∧
    (authenticate_user coll u₂ p₂ t₂).2 = (none, some "Invalid username or password") ∧
    (authenticate_user coll u₁ "" t₁).2 = (none, some "Username and password are required") := by
  refine ⟨?_, ?_, ?_⟩
  · simp [authenticate_user, hu₁, hp₁, h₁]
  · simp [authenticate_user, hu₂, hp₂, h₂, hw]
  · simp [authenticate_user]

/-- C3 witness: on `coll0`, an unknown `bob` and a wrong password for
`alice` produce identical failures; the empty username does not. -/
theorem c3_no_enumeration_witness :
    (authenticate_user coll0 "bob" "x" "t1").2 = (none, some "Invalid username or password") ∧
    (authenticate_user coll0 "alice" "wrong1" "t2").2 =
      (none, some "Invalid username or password") ∧
    (authenticate_user coll0 "bob" "" "t1").2 =
      (none, some "Username and password are required") :=
  c3_no_enumeration coll0 "bob" "x" "alice" "wrong1" "t1" "t2" (by decide) (by decide) rfl
    (by decide) (by decide)
    (docToUser ⟨"id1", "alice", some (generate_password_hash "secret123"), [], "t0", none⟩)
    rfl (by decide)

/-! ### Claim C5 -/

/-- C5: a second registration of the same username fails with the
duplicate-identity error and leaves storage holding exactly the one
record of the first registration, unchanged; and at the storage layer
the unique constraint is atomic — once an `insert_one` for a username
succeeds, any later `insert_one` for the same username raises
`DuplicateKeyError`, so no serialization of two concurrent create
calls lets both succeed. -/
theorem c5_unique_registration (coll : UserColl) (username p₁ p₂ : String)
    (prof₁ prof₂ : List (String × Json)) (oid₁ oid₂ t₁ t₂ : String)
    (hu : username ≠ "") (hl : ¬ username.length < 3)
    (hq₁ : ¬ p₁.length < 6) (hq₂ : ¬ p₂.length < 6)
    (hfresh : user_exists coll username = false) :
    register_user coll username p₁ prof₁ oid₁ t₁ =
      (coll ++ [⟨oid₁, username, some (generate_password_hash p₁), prof₁, t₁, none⟩],
       some ⟨username, some oid₁, some (generate_password_hash p₁), prof₁, some t₁, none⟩,
       none) ∧
    register_user
        (coll ++ [⟨oid₁, username, some (generate_password_hash p₁), prof₁, t₁, none⟩])
        username p₂ prof₂ oid₂ t₂ =
      (coll ++ [⟨oid₁, username, some (generate_password_hash p₁), prof₁, t₁, none⟩],
       none, some "Username already exists") ∧
    List.countP (fun e => e.username == username)
        (coll ++ [(⟨oid₁, username, some (generate_password_hash p₁), prof₁, t₁, none⟩ :
          UserDoc)]) = 1 ∧
    (∀ (c c' : UserColl) (d₁ d₂ : UserDoc), d₁.username = d₂.username →
      insert_one c d₁ = .ok c' → insert_one c' d₂ = .error .duplicateKey) := by
  have hp₁ : p₁ ≠ "" := fun h => hq₁ (by simp [h])
  have hcount : coll.countP (fun e => e.username == username) = 0 := by
    simp only [user_exists, decide_eq_false_iff_not, Nat.pos_iff_ne_zero] at hfresh
    omega
  have hnomem : ∀ e ∈ coll, ¬ (e.username == username) = true :=
    List.countP_eq_zero.mp hcount
  have hany : coll.any (fun e => e.username == username) = false := by
    rw [List.any_eq_false]
    exact hnomem
  refine ⟨?_, ?_, ?_, ?_⟩
  · simp [register_user, hu, hl, hq₁, hfresh, save_user, insert_one, hany, hp₁]
  · have hex : user_exists
        (coll ++ [⟨oid₁, username, some (generate_password_hash p₁), prof₁, t₁, none⟩])
        username = true := by
      simp [user_exists, List.countP_append, List.countP_cons, hcount]
    simp only [register_user, hex]
    have hp₂ : p₂ ≠ "" := fun h => hq₂ (by simp [h])
    simp [hu, hp₂, hl, hq₂]
  · simp [List.countP_append, List.countP_cons, hcount]
  · intro c c' d₁ d₂ hsame hins
    unfold insert_one at hins
    by_cases hc : c.any (fun e => e.username == d₁.username) = true
    · rw [if_pos hc] at hins
      exact absurd hins (by simp)
    · rw [if_neg hc] at hins
      have hc' : c' = c ++ [d₁] := by
        injection hins with h
        exact h.symm
      subst hc'
      simp [insert_one, hsame]

/-- C5 witness: registering `alice` into the empty store succeeds;
registering `alice` again fails with the duplicate error and the store
still holds exactly the first record. -/
theorem c5_unique_registration_witness :
    register_user [] "alice" "secret1" [] "id1" "t1" =
      ([⟨"id1", "alice", some (generate_password_hash "secret1"), [], "t1", none⟩],
       some ⟨"alice", some "id1", some (generate_password_hash "secret1"), [], some "t1", none⟩,
       none) ∧
    register_user [⟨"id1", "alice", some (generate_password_hash "secret1"), [], "t1", none⟩]
        "alice" "secret2" [] "id2" "t2" =
      ([⟨"id1", "alice", some (generate_password_hash "secret1"), [], "t1", none⟩],
       none, some "Username already exists") :=
  ⟨(c5_unique_registration [] "alice" "secret1" "secret2" [] [] "id1" "id2" "t1" "t2"
      (by decide) (by decide) (by decide) (by decide) (by decide)).1,
   (c5_unique_registration [] "alice" "secret1" "secret2" [] [] "id1" "id2" "t1" "t2"
      (by decide) (by decide) (by decide) (by decide) (by decide)).2.1⟩

/-! ### Session Gateway: `require_auth` and the API route bodies
(routes/dashboard.py, routes/profile.py, routes/memory.py) -/

/-- The dashboard blueprint's `require_auth` (dashboard.py lines
21-32): a missing or falsy session `user_id` and an id resolving to no
stored user both yield no user; the latter also clears the session.
Returns the user (if any) and the session after the call (`none` for
absent-or-cleared). -/
def require_auth_dashboard (coll : UserColl) (sess : Option String) :
    Option User × Option String :=
  match sess with
  | none => (none, none)
  | some uid =>
    if uid = "" then (none, some uid)
    else
      match get_user_by_id coll uid with
      | none => (none, none)
      | some u => (some u, some uid)

/-- Outcome of the profile/memory/worker blueprints' `require_auth`:
either a user, or an error response (status, message, code). -/
inductive AuthCheck where
  | pass (u : User)
  | fail (status : Nat) (msg code : String)

/-- The `require_auth` of profile.py lines 18-35, repeated verbatim in
memory.py lines 20-37 and worker.py: no (or falsy) session `user_id`
answers 401 NOT_AUTHENTICATED; a session whose user no longer resolves
is cleared and answers 404 USER_NOT_FOUND. -/
def require_auth_strict (coll : UserColl) (sess : Option String) :
    AuthCheck × Option String :=
  match sess with
  | none => (.fail 401 "Not authenticated" "NOT_AUTHENTICATED", none)
  | some uid =>
    if uid = "" then (.fail 401 "Not authenticated" "NOT_AUTHENTICATED", some uid)
    else
      match get_user_by_id coll uid with
      | none => (.fail 404 "User not found" "USER_NOT_FOUND", none)
      | some u => (.pass u, some uid)

/-- The uniform error envelope the routes jsonify. -/
def errBody (msg code : String) : Json :=
  .obj [("error", .str msg), ("code", .str code)]

/-- The fixed default memory shape of memory.py lines 53-56. -/
def default_memory : Json :=
  .obj [("stm", .obj [("sessions", .arr []), ("count", .num 0)]),
        ("ltm", .obj [("trends", .obj []), ("patterns", .arr []),
                      ("preferences", .obj []), ("available", .bool false)])]

/-- GET `/api/memory` (memory.py lines 39-69); `wire` is the Upstream
Client's `get_memory` result for the authenticated user. -/
def get_memory_route (coll : UserColl) (sess : Option String) (wire : Option Json) :
    Nat × Json :=
  match (require_auth_strict coll sess).1 with
  | .fail s m c => (s, errBody m c)
  | .pass u =>
    match wire with
    | none =>
      (200, .obj [("error", .str "Failed to fetch memory from worker agent"),
                  ("code", .str "WORKER_AGENT_ERROR"), ("memory", default_memory)])
    | some m => (200, .obj [("user_id", .str (u.user_id.getD "")), ("memory", m)])

/-- The tail of `WorkerClient.send_task` (worker_client.py lines
123-133): the completed/error logging probes `result.get('status')`
when the result is truthy — raising if a truthy non-dict came back —
and passes the result through unchanged. -/
def send_task_post (result : Option Json) : Except PyErr (Option Json) :=
  match result with
  | none => .ok none
  | some r =>
    if r.truthy then
      match pyGetD r "status" .null with
      | .error e => .error e
      | .ok _ => .ok (some r)
    else .ok (some r)

/-- The degraded body `/api/recommendations` answers when the worker is
unavailable (dashboard.py lines 77-84). -/
def unavailableRecs : Json :=
  .obj [("sleep_score", .null), ("confidence", .null), ("issues", .arr []),
        ("recommendations", .obj []), ("personalized_tips", .arr []),
        ("available", .bool false)]

/-- The body of the GET `/api/recommendations` handler after
authentication (dashboard.py lines 62-119); `taskWire` is the raw
`_make_request` outcome of the `send_task` call (made with an empty
new-sessions list). -/
def recommendations_core (taskWire : Option Json) : Except PyErr (Nat × Json) :=
  match send_task_post taskWire with
  | .error e => .error e
  | .ok none => .ok (200, unavailableRecs)
  | .ok (some result) =>
    match pyGetD result "status" .null with
    | .error e => .error e
    | .ok st =>
      if eqStr st "error" then
        match pyGetD result "error" (.str "Analysis failed") with
        | .error e => .error e
        | .ok emsg =>
          .ok (200, .obj [("sleep_score", .null), ("confidence", .null), ("issues", .arr []),
                          ("recommendations", .obj []), ("personalized_tips", .arr []),
                          ("available", .bool false), ("error", emsg)])
      else
        match pyGetD result "result" (.obj []) with
        | .error e => .error e
        | .ok rd =>
          match pyGetD rd "sleep_score" .null with
          | .error e => .error e
          | .ok ss =>
          match pyGetD rd "confidence" .null with
          | .error e => .error e
          | .ok cf =>
          match pyGetD rd "issues" (.arr []) with
          | .error e => .error e
          | .ok iss =>
          match pyGetD rd "recommendations" (.obj []) with
          | .error e => .error e
          | .ok recs =>
          match pyGetD rd "personalized_tips" (.arr []) with
          | .error e => .error e
          | .ok tips =>
            .ok (200, .obj [("sleep_score", ss), ("confidence", cf), ("issues", iss),
                            ("recommendations", recs), ("personalized_tips", tips),
                            ("available", .bool true)])

/-- GET `/api/recommendations` (dashboard.py lines 48-126): the whole
handler body runs inside `try/except Exception`, whose handler answers
500 INTERNAL_ERROR. -/
def get_recommendations_route (coll : UserColl) (sess : Option String)
    (taskWire : Option Json) : Nat × Json :=
  match require_auth_dashboard coll sess with
  | (none, _) => (401, errBody "Not authenticated" "NOT_AUTHENTICATED")
  | (some _, _) =>
    match recommendations_core taskWire with
    | .ok resp => resp
    | .error _ => (500, errBody "Internal server error" "INTERNAL_ERROR")

/-- The body of the POST `/api/analyze` handler after authentication
(dashboard.py lines 143-204): `request.get_json()` (raising on an
absent or unparseable body), dict probing of the body, the
`len(sleep_sessions)` logging, then the dispatch on the `send_task`
result. -/
def analyze_core (u : User) (body : Except PyErr Json) (taskWire : Option Json) :
    Except PyErr (Nat × Json) :=
  match body with
  | .error e => .error e
  | .ok data =>
  match pyGetD data "profile" (.obj u.profile) with
  | .error e => .error e
  | .ok _profile =>
  match pyGetD data "sleep_sessions" (.arr []) with
  | .error e => .error e
  | .ok sessions =>
  match pyLen sessions with
  | .error e => .error e
  | .ok _ =>
  match send_task_post taskWire with
  | .error e => .error e
  | .ok none =>
    .ok (503, errBody "Failed to analyze data. Worker agent may be unavailable."
      "WORKER_AGENT_ERROR")
  | .ok (some result) =>
    match pyGetD result "status" .null with
    | .error e => .error e
    | .ok st =>
      if eqStr st "error" then
        match pyGetD result "error" (.str "Analysis failed") with
        | .error e => .error e
        | .ok emsg => .ok (500, .obj [("error", emsg), ("code", .str "ANALYSIS_ERROR")])
      else
        match pyGetD result "result" (.obj []) with
        | .error e => .error e
        | .ok ar => .ok (200, .obj [("success", .bool true), ("result", ar)])

/-- POST `/api/analyze` (dashboard.py lines 128-211): the whole
handler body runs inside `try/except Exception`, whose handler answers
500 INTERNAL_ERROR. -/
def analyze_route (coll : UserColl) (sess : Option String) (body : Except PyErr Json)
    (taskWire : Option Json) : Nat × Json :=
  match require_auth_dashboard coll sess with
  | (none, _) => (401, errBody "Not authenticated" "NOT_AUTHENTICATED")
  | (some u, _) =>
    match analyze_core u body taskWire with
    | .ok resp => resp
    | .error _ => (500, errBody "Internal server error" "INTERNAL_ERROR")

/-- A dict result passes through `send_task`'s logging untouched. -/
theorem send_task_post_obj (rf : List (String × Json)) :
    send_task_post (some (.obj rf)) = .ok (some (.obj rf)) := by
  by_cases h : (Json.obj rf).truthy = true
  · simp [send_task_post, h, pyGetD]
  · simp [send_task_post, h]

/-- A value passing `isArr` is an array. -/
theorem isArr_exists {j : Json} (h : j.isArr = true) : ∃ xs, j = .arr xs := by
  cases j with
  | arr xs => exact ⟨xs, rfl⟩
  | null => exact absurd h (by simp [Json.isArr])
  | bool b => exact absurd h (by simp [Json.isArr])
  | num q => exact absurd h (by simp [Json.isArr])
  | str s => exact absurd h (by simp [Json.isArr])
  | obj fs => exact absurd h (by simp [Json.isArr])

/-! ### Claim C4 -/

/-- C4: for an authenticated request with a well-formed body, a
transport failure of the Upstream Client makes POST `/api/analyze`
answer 503 WORKER_AGENT_ERROR, and a worker reply whose `status` is
`"error"` makes it answer 500 — while GET `/api/recommendations` under
the same transport failure answers HTTP 200 with `available:false`,
nulled score/confidence and empty issues/recommendations/tips, never an
HTTP failure. -/
theorem c4_failure_modes (coll : UserColl) (uid : String) (u : User)
    (bf : List (String × Json)) (r : HttpResp)
    (huid : uid ≠ "") (hu : get_user_by_id coll uid = some u)
    (hsess : Json.isArr (jGetD bf "sleep_sessions" (.arr [])) = true)
    (hr : r = HttpResp.timeout ∨ r = HttpResp.connErr) :
    analyze_route coll (some uid) (.ok (.obj bf)) (make_request r) =
      (503, errBody "Failed to analyze data. Worker agent may be unavailable."
        "WORKER_AGENT_ERROR") ∧
    get_recommendations_route coll (some uid) (make_request r) = (200, unavailableRecs) ∧
    (∀ rf : List (String × Json), jLookup rf "status" = some (.str "error") →
      (analyze_route coll (some uid) (.ok (.obj bf)) (some (.obj rf))).1 = 500) := by
  have hnone : make_request r = none := by
    rcases hr with h | h <;> rw [h] <;> rfl
  obtain ⟨xs, hxs⟩ := isArr_exists hsess
  simp only [jGetD] at hxs
  refine ⟨?_, ?_, ?_⟩
  · simp [analyze_route, require_auth_dashboard, huid, hu, analyze_core, pyGetD, jGetD,
      hxs, pyLen, hnone, send_task_post]
  · simp [get_recommendations_route, require_auth_dashboard, huid, hu,
      recommendations_core, hnone, send_task_post]
  · intro rf hst
    simp [analyze_route, require_auth_dashboard, huid, hu, analyze_core, pyGetD, hxs,
      pyLen, send_task_post_obj, jGetD, hst, eqStr]

/-- C4 witness: on the one-user store, a timeout makes `/api/analyze`
answer 503 and `/api/recommendations` answer 200 `available:false`; a
`status:"error"` worker reply makes `/api/analyze` answer 500. -/
theorem c4_failure_modes_witness :
    analyze_route coll0 (some "id1") (.ok (.obj [])) (make_request .timeout) =
      (503, errBody "Failed to analyze data. Worker agent may be unavailable."
        "WORKER_AGENT_ERROR") ∧
    get_recommendations_route coll0 (some "id1") (make_request .timeout) =
      (200, unavailableRecs) ∧
    (analyze_route coll0 (some "id1") (.ok (.obj []))
      (some (.obj [("status", .str "error")]))).1 = 500 :=
  have h := c4_failure_modes coll0 "id1"
    (docToUser ⟨"id1", "alice", some (generate_password_hash "secret123"), [], "t0", none⟩)
    [] .timeout (by decide) rfl (by decide) (Or.inl rfl)
  ⟨h.1, h.2.1, h.2.2 [("status", .str "error")] rfl⟩

/-! ### Claim C7 -/

/-- C7 counterexample: a stale session (`user_id` resolving to no
user) on GET `/api/memory` is answered 404, while having no session at
all is answered 401 — the two outcomes differ, so the stale session is
NOT answered "as not authenticated, the same outcome as having no
session". -/
theorem c7_counterexample :
    (get_memory_route [] (some "ghost") none).1 = 404 ∧
    (get_memory_route [] none none).1 = 401 ∧
    (404 : Nat) ≠ 401 :=
  ⟨rfl, rfl, by decide⟩

/-- C7 (amended): a session whose `user_id` no longer resolves to a
stored user is cleared and the request is answered with a client
error, never a server error: the dashboard routes answer it exactly as
they answer a missing session, while the profile/memory/worker routes
answer 404 USER_NOT_FOUND — distinct from their 401 for a missing
session. -/
theorem c7_stale_session (coll : UserColl) (uid : String) (huid : uid ≠ "")
    (hgone : get_user_by_id coll uid = none) :
    require_auth_dashboard coll (some uid) = (none, none) ∧
    require_auth_dashboard coll none = (none, none) ∧
    require_auth_strict coll (some uid) =
      (.fail 404 "User not found" "USER_NOT_FOUND", none) ∧
    require_auth_strict coll none =
      (.fail 401 "Not authenticated" "NOT_AUTHENTICATED", none) ∧
    (∀ w, (get_memory_route coll (some uid) w).1 = 404) := by
  refine ⟨by simp [require_auth_dashboard, huid, hgone], rfl,
    by simp [require_auth_strict, huid, hgone], rfl, fun w => ?_⟩
  simp [get_memory_route, require_auth_strict, huid, hgone]

/-- C7 witness: the empty store with session `ghost`. -/
theorem c7_stale_session_witness :
    require_auth_dashboard [] (some "ghost") = (none, none) ∧
    require_auth_strict [] (some "ghost") =
      (.fail 404 "User not found" "USER_NOT_FOUND", none) ∧
    (get_memory_route [] (some "ghost") (some (.obj []))).1 = 404 :=
  have h := c7_stale_session [] "ghost" (by decide) rfl
  ⟨h.1, h.2.2.1, h.2.2.2.2 (some (.obj []))⟩

/-! ### Claim C8 -/

/-- C8: for an authenticated GET `/api/memory` during which the
Upstream Client returns the failure outcome, the endpoint answers HTTP
200 carrying the fixed default memory shape (stm: empty sessions,
count 0; ltm: empty trends/patterns/preferences, available false)
together with the WORKER_AGENT_ERROR code. -/
theorem c8_memory_default (coll : UserColl) (uid : String) (u : User) (r : HttpResp)
    (huid : uid ≠ "") (hu : get_user_by_id coll uid = some u)
    (hw : make_request r = none) :
    get_memory_route coll (some uid) (make_request r) =
      (200, .obj [("error", .str "Failed to fetch memory from worker agent"),
                  ("code", .str "WORKER_AGENT_ERROR"),
                  ("memory", default_memory)]) := by
  simp [get_memory_route, require_auth_strict, huid, hu, hw]

/-- C8 witness: the one-user store under a worker timeout. -/
theorem c8_memory_default_witness :
    get_memory_route coll0 (some "id1") (make_request .timeout) =
      (200, .obj [("error", .str "Failed to fetch memory from worker agent"),
                  ("code", .str "WORKER_AGENT_ERROR"),
                  ("memory", default_memory)]) :=
  c8_memory_default coll0 "id1"
    (docToUser ⟨"id1", "alice", some (generate_password_hash "secret123"), [], "t0", none⟩)
    .timeout (by decide) rfl rfl

/-! ### Claim C10 -/

/-- C10: for an authenticated POST `/api/analyze` whose body is absent
or unparseable (`request.get_json()` raising) or parses to a non-object
(so the handler's `data.get` raises), the generic exception handler
answers 500 INTERNAL_ERROR — not a 400 validation error. -/
theorem c10_bad_body (coll : UserColl) (uid : String) (u : User)
    (huid : uid ≠ "") (hu : get_user_by_id coll uid = some u) :
    (∀ (e : PyErr) (w : Option Json),
      analyze_route coll (some uid) (.error e) w =
        (500, errBody "Internal server error" "INTERNAL_ERROR")) ∧
    (∀ (j : Json) (w : Option Json), j.isObj = false →
      analyze_route coll (some uid) (.ok j) w =
        (500, errBody "Internal server error" "INTERNAL_ERROR")) := by
  constructor
  · intro e w
    simp [analyze_route, require_auth_dashboard, huid, hu, analyze_core]
  · intro j w hj
    cases j with
    | obj fs => exact absurd hj (by simp [Json.isObj])
    | null =>
      simp [analyze_route, require_auth_dashboard, huid, hu, analyze_core, pyGetD]
    | bool b =>
      simp [analyze_route, require_auth_dashboard, huid, hu, analyze_core, pyGetD]
    | num q =>
      simp [analyze_route, require_auth_dashboard, huid, hu, analyze_core, pyGetD]
    | str s =>
      simp [analyze_route, require_auth_dashboard, huid, hu, analyze_core, pyGetD]
    | arr xs =>
      simp [analyze_route, require_auth_dashboard, huid, hu, analyze_core, pyGetD]

/-- C10 witness: an unparseable body and a JSON-array body both answer
500 INTERNAL_ERROR on the one-user store. -/
theorem c10_bad_body_witness :
    analyze_route coll0 (some "id1") (.error .badRequest) none =
      (500, errBody "Internal server error" "INTERNAL_ERROR") ∧
    analyze_route coll0 (some "id1") (.ok (.arr [])) none =
      (500, errBody "Internal server error" "INTERNAL_ERROR") :=
  have h := c10_bad_body coll0 "id1"
    (docToUser ⟨"id1", "alice", some (generate_password_hash "secret123"), [], "t0", none⟩)
    (by decide) rfl
  ⟨h.1 .badRequest none, h.2 (.arr []) none (by decide)⟩

end Supervisor
